import Mathlib

/-!
Verification of the filter-aggregate-rank pipeline of the SEED dashboards.

The repository has two pages:
  - Home.py: the corporate SEC dashboard (the page script appears three
    times concatenated; the pipeline logic is identical in each copy);
  - the nonprofit IRS dashboard page.

We embed the dataframe operations of those pages shallowly: a dataset is a
list of rows, a row is a structure whose numeric cells are `Option ℚ`
(`none` models the pandas NaN / missing marker).  Float division that can
produce NaN or infinity is modelled by `fdiv`, which returns `none` when
the denominator is zero.  Pandas reductions skip NaN, which we model by
`List.filterMap id` before summing.
-/

/-- A row of the corporate SEC dataset loaded by Home.py.  Numeric cells
are `Option ℚ`; `none` models NaN.  The categorical cells State and
Business Sector may also be missing. -/
structure CorpRow where
  name : String
  state : Option String
  sector : Option String
  totalEnvExp : Option ℚ
  mandatedEnvExp : Option ℚ
  charitableEnvExp : Option ℚ
  charitableContrib : Option ℚ
  revenues : Option ℚ
deriving DecidableEq, Repr

/-- The metric columns offered by the corporate page radio controls
(Home.py lines 115-119 and 278-286). -/
inductive ActorMetric where
  | totalEnvExp
  | mandatedEnvExp
  | charitableEnvExp
  | charitableContrib
deriving DecidableEq, Repr

/-- Column access `df[actor_metric]` for a single corporate row. -/
def CorpRow.metricVal (r : CorpRow) : ActorMetric → Option ℚ
  | .totalEnvExp => r.totalEnvExp
  | .mandatedEnvExp => r.mandatedEnvExp
  | .charitableEnvExp => r.charitableEnvExp
  | .charitableContrib => r.charitableContrib

/-- The Metric Filter: `df[df[actor_metric].notna()]`
(Home.py line 121 and line 299).  Keeps exactly the rows whose selected
metric cell is present, in their original order. -/
def metricFilter (df : List CorpRow) (m : ActorMetric) : List CorpRow :=
  df.filter (fun r => (r.metricVal m).isSome)

/-- The denominator step of the Metric Filter:
`df["Revenues"] = df["Revenues"].replace(0, np.nan)`
(Home.py line 122 and line 307).  Every revenue cell equal to zero is
replaced by the missing marker; nothing else changes. -/
def replaceZeroRevenues (df : List CorpRow) : List CorpRow :=
  df.map (fun r =>
    { r with revenues := if r.revenues = some 0 then none else r.revenues })

/-- Float division as pandas produces it: a zero denominator gives NaN
(for 0/0) or infinity (for x/0), neither of which is a finite number;
both are modelled by `none`. -/
def fdiv (a b : ℚ) : Option ℚ :=
  if b = 0 then none else some (a / b)

/-- Models `pandas.Series.mean` with its default skipna behaviour: the mean of
the present values, NaN (`none`) when no value is present. -/
def naMean (vs : List (Option ℚ)) : Option ℚ :=
  let xs := vs.filterMap id
  fdiv xs.sum (xs.length : ℚ)

/-- Models `pandas.Series.median` with its default skipna behaviour: sort the
present values, take the middle one (odd count) or the mean of the two
middle ones (even count); NaN (`none`) when no value is present. -/
def naMedian (vs : List (Option ℚ)) : Option ℚ :=
  let xs := (vs.filterMap id).mergeSort (fun a b => decide (a ≤ b))
  if xs.length = 0 then none
  else if xs.length % 2 = 1 then some (xs.getD (xs.length / 2) 0)
  else some ((xs.getD (xs.length / 2 - 1) 0 + xs.getD (xs.length / 2) 0) / 2)

/-- Result of `compute_summary_statistics` on the corporate page
(Home.py lines 125-133 and 320-325): number of distinct company names,
number of distinct business sectors, median of the Revenues column. -/
structure SummaryStatsCorp where
  companies : Nat
  sectors : Nat
  medianRevenues : Option ℚ
deriving DecidableEq, Repr

/-- Models `compute_summary_statistics` of Home.py: `nunique` of Name,
`nunique` of Business Sector (pandas nunique does not count NaN), and
`median` of Revenues with no fallback for an empty or all-null column. -/
def compute_summary_statistics (df : List CorpRow) : SummaryStatsCorp :=
  { companies := (df.map (·.name)).dedup.length
    sectors := (df.filterMap (·.sector)).dedup.length
    medianRevenues := naMedian (df.map (·.revenues)) }

/-- A row of the IRS Form 990 extract loaded by the nonprofit page
(usecols `ein, totassetsend, totrevenue, totfuncexpns, payrolltx`).
Numeric cells are `Option ℚ` after `pd.to_numeric(..., errors="coerce")`;
`none` models NaN. -/
structure Row990 where
  ein : String
  totassetsend : Option ℚ
  totrevenue : Option ℚ
  totfuncexpns : Option ℚ
  payrolltx : Option ℚ
deriving DecidableEq, Repr

/-- A row of the IRS EOBMF extract loaded by the nonprofit page
(usecols `EIN, NTEE_CD, STATE, REVENUE_AMT`). -/
structure BmfRow where
  ein : String
  nteeCd : Option String
  state : Option String
  revenueAmt : Option ℚ
deriving DecidableEq, Repr

/-- The nonprofit-size selector values of the sidebar selectbox. -/
inductive SizeChoice where
  | all
  | small
  | medium
  | large
deriving DecidableEq, Repr

/-- The size-bucket filter of the nonprofit page (lines 72-78):
`df_env_990[df_env_990["totassetsend"] < 1_000_000]` and so on.  A pandas
comparison against NaN is False, so a row with a missing totassetsend is
excluded from every bucket. -/
def applySizeFilter (c : SizeChoice) (df : List Row990) : List Row990 :=
  match c with
  | .all => df
  | .small => df.filter (fun r =>
      match r.totassetsend with
      | some v => decide (v < 1000000)
      | none => false)
  | .medium => df.filter (fun r =>
      match r.totassetsend with
      | some v => decide (1000000 ≤ v) && decide (v ≤ 10000000)
      | none => false)
  | .large => df.filter (fun r =>
      match r.totassetsend with
      | some v => decide (10000000 < v)
      | none => false)

/-- The nonprofit loader `load_data` (nonprofit page lines 21-27).  The
outcome of `pd.read_csv` is passed in as an `Except`: the `try` block
returns the parsed dataset with no message, the `except` block shows
`st.error(f"Error loading data: {e}")` and returns an empty DataFrame.
The second component is the list of error messages displayed. -/
def load_data (fetch : Except String (List α)) : List α × List String :=
  match fetch with
  | .ok d => (d, [])
  | .error e => ([], ["Error loading data: " ++ e])

/-- The corporate loader `load_data` of Home.py (lines 86-88 and
267-270): `return pd.read_csv(url)` with no exception handler, so the
outcome of the fetch, success or failure, is returned unchanged and a
failure propagates to the page. -/
def load_data_corporate (fetch : Except String (List CorpRow)) :
    Except String (List CorpRow) :=
  fetch

/-- Result of `compute_summary_stats` on the nonprofit page (lines
87-93): row count and the three guarded column means. -/
structure SummaryStats990 where
  totalNonprofits : Nat
  avgAssets : Option ℚ
  avgRevenue : Option ℚ
  avgExpenses : Option ℚ
deriving DecidableEq, Repr

/-- Models `compute_summary_stats` of the nonprofit page:
`df[col].mean() if not df[col].isna().all() else 0` for each of the
three financial columns, and `len(df)` for the count. -/
def compute_summary_stats (df : List Row990) : SummaryStats990 :=
  { totalNonprofits := df.length
    avgAssets :=
      if (df.map (·.totassetsend)).all Option.isNone then some 0
      else naMean (df.map (·.totassetsend))
    avgRevenue :=
      if (df.map (·.totrevenue)).all Option.isNone then some 0
      else naMean (df.map (·.totrevenue))
    avgExpenses :=
      if (df.map (·.totfuncexpns)).all Option.isNone then some 0
      else naMean (df.map (·.totfuncexpns)) }

/-- One row of the output of
`df.groupby(dim).agg({metric: ["count", "sum"]})` (Home.py lines 149-150,
192-193, 341-342, 384-385): the partition key, the row count of the
partition and the sum of the metric over the partition. -/
structure AggGroup where
  key : String
  count : Nat
  total : ℚ
deriving DecidableEq, Repr

/-- The distinct non-null values of a dimension column, in first
occurrence order: the partition keys of a pandas groupby, which drops
rows whose group key is NaN. -/
def dimKeys (dim : CorpRow → Option String) (df : List CorpRow) :
    List String :=
  (df.filterMap dim).dedup

/-- The partition of the rows of `df` whose dimension cell equals the
key `k`. -/
def dimPartition (dim : CorpRow → Option String) (df : List CorpRow)
    (k : String) : List CorpRow :=
  df.filter (fun r => decide (dim r = some k))

/-- The Dimensional Aggregator
`df.groupby(dim).agg({metric: ["count", "sum"]})`: one AggGroup per
distinct non-null dimension value; pandas count counts the rows of the
partition (the metric is non-null there, the Metric Filter ran first)
and sum adds the present metric values. -/
def groupbyAgg (dim : CorpRow → Option String) (m : ActorMetric)
    (df : List CorpRow) : List AggGroup :=
  (dimKeys dim df).map (fun k =>
    { key := k
      count := (dimPartition dim df k).length
      total := ((dimPartition dim df k).filterMap
        (fun r => r.metricVal m)).sum })

/-- Models `DataFrame.nlargest(n, key)` with the default keep equal to first:
sort stably in descending key order (ties keep original order) and take
the first `n` rows. -/
def rankerLargest (key : α → ℚ) (n : Nat) (xs : List α) : List α :=
  (xs.mergeSort (fun a b => decide (key b ≤ key a))).take n

/-- The Geographic Insights share (Home.py lines 183-184):
`state_df.nlargest(5, m)[m].sum() / state_df[m].sum() * 100`.  The
division is not guarded, so a zero grand total gives NaN (`none`). -/
def topStatesShare (groups : List AggGroup) : Option ℚ :=
  (fdiv ((rankerLargest AggGroup.total 5 groups).map AggGroup.total).sum
    ((groups.map AggGroup.total).sum)).map (· * 100)

/-- The program-spending share of the nonprofit page (line 146):
`(amounts[0] / amounts.sum() * 100) if amounts.sum() > 0 else 0` where
`amounts = [sum totfuncexpns, sum payrolltx]` over the filtered view. -/
def programPct (df : List Row990) : Option ℚ :=
  let prog := (df.filterMap (·.totfuncexpns)).sum
  let admin := (df.filterMap (·.payrolltx)).sum
  if 0 < prog + admin then (fdiv prog (prog + admin)).map (· * 100)
  else some 0

/-- The environmental NTEE prefixes `C30`..`C60` (line 45). -/
def envNteeCodes : List String :=
  (List.range 31).map (fun i => "C" ++ toString (30 + i))

/-- The environmental subset of the EOBMF (line 46):
`df_bmf[df_bmf["NTEE_CD"].astype(str).str.startswith(tuple(codes), na=False)]`.
A missing NTEE code becomes the string nan under astype(str), which does
not start with any of the prefixes, so such rows are excluded. -/
def envBmf (dfBmf : List BmfRow) : List BmfRow :=
  dfBmf.filter (fun r =>
    match r.nteeCd with
    | some s => envNteeCodes.any (fun c => s.startsWith c)
    | none => false)

/-- The 990 rows whose EIN appears in the environmental EOBMF subset
(lines 47-48): a set-membership test, not a join. -/
def env990 (dfBmf : List BmfRow) (df990 : List Row990) : List Row990 :=
  df990.filter (fun r => (envBmf dfBmf).any (fun b => b.ein == r.ein))

/-- The state filter applied to the filtered 990 view (lines 80-81):
when the state multiselect is non-empty, keep the 990 rows whose EIN
appears in an EOBMF row of a selected state. -/
def applyStateFilter (stateFilter : List String) (dfBmf : List BmfRow)
    (df : List Row990) : List Row990 :=
  if stateFilter.isEmpty then df
  else df.filter (fun r =>
    (envBmf dfBmf).any (fun b =>
      b.ein == r.ein && (match b.state with
        | some s => stateFilter.contains s
        | none => false)))

/-- The Funding by State aggregation (lines 107-108): restrict the
environmental EOBMF rows to the selected states (or to the rows with a
non-null state when no state is selected), then group by state and sum
REVENUE_AMT. -/
def stateFunding (stateFilter : List String) (dfEnvBmf : List BmfRow) :
    List (String × ℚ) :=
  let dfsel := dfEnvBmf.filter (fun r =>
    match r.state with
    | some s => if stateFilter.isEmpty then true else stateFilter.contains s
    | none => false)
  ((dfsel.filterMap (·.state)).dedup).map (fun s =>
    (s, ((dfsel.filter (fun r => decide (r.state = some s))).filterMap
      (·.revenueAmt)).sum))

/-- The Financial Trends radar values (lines 149-161): for each of the
three fixed size buckets, the bucket filter of the unfiltered
environmental 990 view and the mean of each metric divided by one
million. -/
def radarValues (dfEnv990 : List Row990) : List (List (Option ℚ)) :=
  [SizeChoice.small, SizeChoice.medium, SizeChoice.large].map (fun sz =>
    let temp := applySizeFilter sz dfEnv990
    [ (naMean (temp.map (·.totassetsend))).map (· / 1000000),
      (naMean (temp.map (·.totrevenue))).map (· / 1000000),
      (naMean (temp.map (·.totfuncexpns))).map (· / 1000000) ])

/-- The outputs of one render of the nonprofit page that the claims
talk about. -/
structure NonprofitPage where
  stats : SummaryStats990
  programShare : Option ℚ
  funding : List (String × ℚ)
  radar : List (List (Option ℚ))
deriving Repr

/-- One top-to-bottom render of the nonprofit page, as a function of the
two sidebar controls and the two loaded datasets: build the
environmental views (lines 44-48), apply the size and state filters to
obtain `df_filtered` (lines 71-81), then compute the summary statistics
and the spending share from `df_filtered`, while Funding by State reads
`df_env_bmf` and the radar reads `df_env_990`, both untouched by the
size selector (lines 105-109 and 149-161). -/
def renderNonprofitPage (size : SizeChoice) (stateFilter : List String)
    (dfBmf : List BmfRow) (df990 : List Row990) : NonprofitPage :=
  let dfEnvBmf := envBmf dfBmf
  let dfEnv990 := env990 dfBmf df990
  let dfFiltered :=
    applyStateFilter stateFilter dfBmf (applySizeFilter size dfEnv990)
  { stats := compute_summary_stats dfFiltered
    programShare := programPct dfFiltered
    funding := stateFunding stateFilter dfEnvBmf
    radar := radarValues dfEnv990 }

/-- Sample rows and view used by concrete witnesses. -/
def rowCA_A : CorpRow :=
  { name := "A", state := some "CA", sector := none, totalEnvExp := none,
    mandatedEnvExp := none, charitableEnvExp := none,
    charitableContrib := none, revenues := none }

/-- A sample row with a null State. -/
def rowNone_B : CorpRow :=
  { name := "B", state := none, sector := none, totalEnvExp := none,
    mandatedEnvExp := none, charitableEnvExp := none,
    charitableContrib := none, revenues := none }

/-- A second sample CA row. -/
def rowCA_C : CorpRow :=
  { name := "C", state := some "CA", sector := none, totalEnvExp := none,
    mandatedEnvExp := none, charitableEnvExp := none,
    charitableContrib := none, revenues := none }

/-- A sample TX row. -/
def rowTX_D : CorpRow :=
  { name := "D", state := some "TX", sector := none, totalEnvExp := none,
    mandatedEnvExp := none, charitableEnvExp := none,
    charitableContrib := none, revenues := none }

/-- A sample four-row view. -/
def sampleStateDf : List CorpRow := [rowCA_A, rowNone_B, rowCA_C, rowTX_D]

/-- C1: the Metric Filter applied to a dataset with a selected metric
returns exactly the rows whose cell in the metric column is non-null,
each row verbatim and in the same relative order (a sublist, with exact
multiplicities), and the same output on every invocation with the same
inputs. -/
theorem metricFilter_exact (df : List CorpRow) (m : ActorMetric) :
    (metricFilter df m).Sublist df ∧
    (∀ r ∈ metricFilter df m, (r.metricVal m).isSome) ∧
    (∀ r : CorpRow, (metricFilter df m).count r =
      if (r.metricVal m).isSome then df.count r else 0) ∧
    (∀ df2, df = df2 → metricFilter df m = metricFilter df2 m) := by
  refine ⟨List.filter_sublist df, ?_, ?_, ?_⟩
  · intro r hr
    exact (List.mem_filter.mp hr).2
  · intro r
    by_cases h : (r.metricVal m).isSome
    · rw [if_pos h]
      exact List.count_filter h
    · rw [if_neg h]
      refine List.count_eq_zero.mpr (fun hmem => ?_)
      exact h ((List.mem_filter.mp hmem).2)
  · intro df2 h
    rw [h]

/-- Witness for C1 at a concrete dataset of two rows, one with the
metric present and one without. -/
theorem metricFilter_exact_witness :
    (∀ r ∈ metricFilter
        [⟨"A", none, none, some 5, none, none, none, some 7⟩,
         ⟨"B", none, none, none, none, none, none, some 9⟩]
        ActorMetric.totalEnvExp,
      (r.metricVal ActorMetric.totalEnvExp).isSome) ∧
    (metricFilter
        [⟨"A", none, none, some 5, none, none, none, some 7⟩,
         ⟨"B", none, none, none, none, none, none, some 9⟩]
        ActorMetric.totalEnvExp).count
      ⟨"A", none, none, some 5, none, none, none, some 7⟩ =
      if ((⟨"A", none, none, some 5, none, none, none, some 7⟩ :
          CorpRow).metricVal ActorMetric.totalEnvExp).isSome
      then ([⟨"A", none, none, some 5, none, none, none, some 7⟩,
         ⟨"B", none, none, none, none, none, none, some 9⟩] :
          List CorpRow).count
        ⟨"A", none, none, some 5, none, none, none, some 7⟩ else 0 :=
  ⟨(metricFilter_exact _ ActorMetric.totalEnvExp).2.1,
   (metricFilter_exact _ ActorMetric.totalEnvExp).2.2.1 _⟩

/-- C7: the denominator step replaces each revenue cell exactly equal to
zero with the missing marker, keeps every row (same length, so no row is
dropped), leaves non-zero revenue cells unchanged and leaves every other
cell of every row unchanged (stated pointwise over the zip of input and
output). -/
theorem replaceZeroRevenues_spec (df : List CorpRow) :
    (replaceZeroRevenues df).length = df.length ∧
    ∀ p ∈ df.zip (replaceZeroRevenues df),
      p.2.name = p.1.name ∧ p.2.state = p.1.state ∧
      p.2.sector = p.1.sector ∧ p.2.totalEnvExp = p.1.totalEnvExp ∧
      p.2.mandatedEnvExp = p.1.mandatedEnvExp ∧
      p.2.charitableEnvExp = p.1.charitableEnvExp ∧
      p.2.charitableContrib = p.1.charitableContrib ∧
      (p.1.revenues = some 0 → p.2.revenues = none) ∧
      (p.1.revenues ≠ some 0 → p.2.revenues = p.1.revenues) := by
  constructor
  · simp [replaceZeroRevenues]
  · induction df with
    | nil => intro p hp; simp [replaceZeroRevenues] at hp
    | cons a l ih =>
      intro p hp
      rw [replaceZeroRevenues, List.map_cons] at hp
      rcases List.mem_cons.mp (by exact hp) with h | h
      · subst h
        refine ⟨rfl, rfl, rfl, rfl, rfl, rfl, rfl, ?_, ?_⟩
        · intro h0
          have h0a : a.revenues = some 0 := h0
          show (if a.revenues = some 0 then none else a.revenues) = none
          rw [if_pos h0a]
        · intro h0
          have h0a : ¬(a.revenues = some 0) := h0
          show (if a.revenues = some 0 then none else a.revenues) = a.revenues
          rw [if_neg h0a]
      · exact ih p h

/-- Witness for C7 at the spec example: rows with revenues 0 and 100;
the zero revenue becomes missing, the non-zero one is unchanged, no row
is dropped. -/
theorem replaceZeroRevenues_witness :
    (replaceZeroRevenues
      [⟨"A", none, none, some 10, none, none, none, some 0⟩,
       ⟨"B", none, none, some 20, none, none, none, some 100⟩]).length =
      ([⟨"A", none, none, some 10, none, none, none, some 0⟩,
        ⟨"B", none, none, some 20, none, none, none, some 100⟩] :
        List CorpRow).length ∧
    ((⟨"A", none, none, some 10, none, none, none, some 0⟩ : CorpRow),
      (⟨"A", none, none, some 10, none, none, none, none⟩ :
        CorpRow)).2.revenues = none ∧
    ((⟨"B", none, none, some 20, none, none, none, some 100⟩ : CorpRow),
      (⟨"B", none, none, some 20, none, none, none, some 100⟩ :
        CorpRow)).2.revenues = some 100 :=
  ⟨(replaceZeroRevenues_spec _).1,
   ((replaceZeroRevenues_spec
      [⟨"A", none, none, some 10, none, none, none, some 0⟩,
       ⟨"B", none, none, some 20, none, none, none, some 100⟩]).2
      _ (by decide)).2.2.2.2.2.2.2.1 rfl,
   ((replaceZeroRevenues_spec
      [⟨"A", none, none, some 10, none, none, none, some 0⟩,
       ⟨"B", none, none, some 20, none, none, none, some 100⟩]).2
      _ (by decide)).2.2.2.2.2.2.2.2 (by decide)⟩

/-- C5: for a row with a present total-assets value, membership in the
size buckets is exactly: Small iff assets below one million, Medium iff
between one million and ten million inclusive, Large iff above ten
million; in particular the one-million boundary falls in Medium. -/
theorem sizeFilter_buckets (df : List Row990) (r : Row990) (v : ℚ)
    (hv : r.totassetsend = some v) :
    (r ∈ applySizeFilter SizeChoice.small df ↔ r ∈ df ∧ v < 1000000) ∧
    (r ∈ applySizeFilter SizeChoice.medium df ↔
      r ∈ df ∧ 1000000 ≤ v ∧ v ≤ 10000000) ∧
    (r ∈ applySizeFilter SizeChoice.large df ↔ r ∈ df ∧ 10000000 < v) := by
  refine ⟨?_, ?_, ?_⟩ <;>
    simp [applySizeFilter, List.mem_filter, hv, and_assoc]

/-- Witness for C5: a row whose assets are exactly one million lands in
the Medium bucket and not in the Small bucket. -/
theorem sizeFilter_buckets_witness :
    (⟨"E", some 1000000, none, none, none⟩ : Row990) ∈
      applySizeFilter SizeChoice.medium
        [⟨"E", some 1000000, none, none, none⟩] ∧
    (⟨"E", some 1000000, none, none, none⟩ : Row990) ∉
      applySizeFilter SizeChoice.small
        [⟨"E", some 1000000, none, none, none⟩] :=
  ⟨(sizeFilter_buckets [⟨"E", some 1000000, none, none, none⟩]
      ⟨"E", some 1000000, none, none, none⟩ 1000000 rfl).2.1.mpr
      ⟨by simp, by norm_num, by norm_num⟩,
   fun h => absurd
     (((sizeFilter_buckets [⟨"E", some 1000000, none, none, none⟩]
        ⟨"E", some 1000000, none, none, none⟩ 1000000 rfl).1.mp h).2)
     (by norm_num)⟩

/-- Counterexample to C2: the corporate loader of Home.py has no
exception handler, so on a failed fetch it propagates the failure to the
page instead of substituting an empty Dataset. -/
theorem load_data_corporate_counterexample :
    load_data_corporate (Except.error "network error") =
      Except.error "network error" ∧
    load_data_corporate (Except.error "network error") ≠
      Except.ok ([] : List CorpRow) :=
  ⟨rfl, fun h => Except.noConfusion h⟩

/-- C2 amended: only the nonprofit loader catches a failed fetch at the
Loader boundary, shows a visible non-fatal message and returns an empty
Dataset; a successful fetch passes through unchanged with no message;
the corporate loader of Home.py propagates the failure unchanged. -/
theorem load_data_boundary :
    (∀ e : String,
      (load_data (Except.error e) : List Row990 × List String) =
        ([], ["Error loading data: " ++ e])) ∧
    (∀ d : List Row990, load_data (Except.ok d) = (d, [])) ∧
    (∀ e : String, load_data_corporate (Except.error e) = Except.error e) :=
  ⟨fun _ => rfl, fun _ => rfl, fun _ => rfl⟩

/-- If some value of the column is present, the skipna mean is a finite
number. -/
theorem naMean_isSome {vs : List (Option ℚ)}
    (h : ¬ vs.all Option.isNone = true) : (naMean vs).isSome := by
  have hex : ∃ x ∈ vs, ¬ (Option.isNone x = true) := by
    simpa [List.all_eq_true] using h
  obtain ⟨x, hx, hnx⟩ := hex
  obtain ⟨v, rfl⟩ : ∃ v, x = some v := by
    cases x with
    | none => simp at hnx
    | some v => exact ⟨v, rfl⟩
  have hv : v ∈ vs.filterMap id := List.mem_filterMap.mpr ⟨some v, hx, rfl⟩
  have hlen : (vs.filterMap id).length ≠ 0 :=
    Nat.pos_iff_ne_zero.mp (List.length_pos.mpr (List.ne_nil_of_mem hv))
  have hrw : naMean vs =
      fdiv (vs.filterMap id).sum ((vs.filterMap id).length : ℚ) := rfl
  rw [hrw]
  unfold fdiv
  rw [if_neg (by exact_mod_cast hlen)]
  rfl

/-- Counterexample to C3: the corporate summary statistics of Home.py
compute the median of Revenues with no fallback, so on an empty Filtered
View the median is NaN (`none`), not 0. -/
theorem summary_median_counterexample :
    (compute_summary_statistics []).medianRevenues = none ∧
    (compute_summary_statistics []).medianRevenues ≠ some 0 := by
  constructor
  · simp [compute_summary_statistics, naMedian]
  · simp [compute_summary_statistics, naMedian]

/-- C3 amended: the nonprofit summary statistics are guarded: a column
whose values are all null gets mean 0 rather than NaN, the means are
never NaN, and the empty Filtered View yields count 0 and mean 0 for
every column; the corporate median of Home.py has no such fallback (see
the counterexample). -/
theorem summary_stats_guarded (df : List Row990) :
    ((df.map (·.totassetsend)).all Option.isNone = true →
      (compute_summary_stats df).avgAssets = some 0) ∧
    ((df.map (·.totrevenue)).all Option.isNone = true →
      (compute_summary_stats df).avgRevenue = some 0) ∧
    ((df.map (·.totfuncexpns)).all Option.isNone = true →
      (compute_summary_stats df).avgExpenses = some 0) ∧
    (compute_summary_stats df).avgAssets.isSome ∧
    (compute_summary_stats df).avgRevenue.isSome ∧
    (compute_summary_stats df).avgExpenses.isSome ∧
    (df = [] → compute_summary_stats df =
      { totalNonprofits := 0, avgAssets := some 0,
        avgRevenue := some 0, avgExpenses := some 0 }) := by
  refine ⟨?_, ?_, ?_, ?_, ?_, ?_, ?_⟩
  · intro h; simp [compute_summary_stats, h]
  · intro h; simp [compute_summary_stats, h]
  · intro h; simp [compute_summary_stats, h]
  · by_cases h : (df.map (·.totassetsend)).all Option.isNone = true
    · simp [compute_summary_stats, h]
    · simp only [compute_summary_stats, if_neg h]
      exact naMean_isSome h
  · by_cases h : (df.map (·.totrevenue)).all Option.isNone = true
    · simp [compute_summary_stats, h]
    · simp only [compute_summary_stats, if_neg h]
      exact naMean_isSome h
  · by_cases h : (df.map (·.totfuncexpns)).all Option.isNone = true
    · simp [compute_summary_stats, h]
    · simp only [compute_summary_stats, if_neg h]
      exact naMean_isSome h
  · intro h; subst h; rfl

/-- Witness for C3: on a one-row view whose financial cells are all
null, every mean is 0, and the empty view yields count 0 and means 0. -/
theorem summary_stats_guarded_witness :
    (compute_summary_stats [⟨"X", none, none, none, none⟩]).avgAssets =
      some 0 ∧
    (compute_summary_stats [⟨"X", none, none, none, none⟩]).avgRevenue =
      some 0 ∧
    (compute_summary_stats [⟨"X", none, none, none, none⟩]).avgExpenses =
      some 0 ∧
    compute_summary_stats ([] : List Row990) =
      { totalNonprofits := 0, avgAssets := some 0,
        avgRevenue := some 0, avgExpenses := some 0 } :=
  ⟨(summary_stats_guarded [⟨"X", none, none, none, none⟩]).1 rfl,
   (summary_stats_guarded [⟨"X", none, none, none, none⟩]).2.1 rfl,
   (summary_stats_guarded [⟨"X", none, none, none, none⟩]).2.2.1 rfl,
   (summary_stats_guarded []).2.2.2.2.2.2 rfl⟩

/-- Counterexample to C4: the Geographic Insights share of Home.py
divides by the grand total with no guard, so on an empty population the
division produces NaN (`none`), not the share 0 the claim requires. -/
theorem topStatesShare_empty_counterexample :
    topStatesShare [] = none ∧ topStatesShare [] ≠ some 0 := by
  constructor <;> simp [topStatesShare, rankerLargest, fdiv]

/-- C4 amended: the nonprofit program-spending share is guarded: it is
always a finite number, and on an empty population it is 0; the
corporate Geographic Insights share performs the division unguarded and
is NaN (`none`) on an empty population. -/
theorem share_division_guards (df : List Row990) :
    (programPct df).isSome ∧
    programPct ([] : List Row990) = some 0 ∧
    topStatesShare [] = none := by
  refine ⟨?_, by simp [programPct],
    by simp [topStatesShare, rankerLargest, fdiv]⟩
  have hrw : programPct df =
      if 0 < (df.filterMap (·.totfuncexpns)).sum +
          (df.filterMap (·.payrolltx)).sum
      then (fdiv (df.filterMap (·.totfuncexpns)).sum
        ((df.filterMap (·.totfuncexpns)).sum +
          (df.filterMap (·.payrolltx)).sum)).map (· * 100)
      else some 0 := rfl
  rw [hrw]
  split
  · next h =>
      unfold fdiv
      rw [if_neg h.ne']
      rfl
  · rfl

/-- Witness for C4 at a concrete one-row population. -/
theorem share_division_guards_witness :
    (programPct [⟨"X", none, none, some 3, some 1⟩]).isSome ∧
    programPct ([] : List Row990) = some 0 ∧
    topStatesShare [] = none :=
  share_division_guards [⟨"X", none, none, some 3, some 1⟩]

/-- Counterexample to C9: a non-empty population whose key values are
all non-negative but sum to zero makes the share computation divide zero
by zero: the result is NaN (`none`), not a number between 0 and 100. -/
theorem topStatesShare_zero_counterexample :
    topStatesShare [⟨"CA", 1, 0⟩] = none ∧
    (topStatesShare [⟨"CA", 1, 0⟩]).isSome = false := by
  constructor <;> simp [topStatesShare, rankerLargest, fdiv]

/-- The sum of a prefix of a permutation of a list of non-negative
rationals is between 0 and the sum of the list. -/
theorem sum_take_nonneg_le {l m : List ℚ} (hp : List.Perm m l)
    (hnn : ∀ x ∈ l, 0 ≤ x) (n : Nat) :
    0 ≤ (m.take n).sum ∧ (m.take n).sum ≤ l.sum := by
  have hnn2 : ∀ x ∈ m, 0 ≤ x := fun x hx => hnn x (hp.mem_iff.mp hx)
  constructor
  · exact List.sum_nonneg (fun x hx => hnn2 x ((List.take_sublist _ _).subset hx))
  · rw [← hp.sum_eq]
    conv_rhs => rw [← List.take_append_drop n m]
    rw [List.sum_append]
    have hd : 0 ≤ (m.drop n).sum :=
      List.sum_nonneg (fun x hx => hnn2 x ((List.drop_sublist _ _).subset hx))
    linarith

/-- C9 amended: for every population whose key values are non-negative
and whose grand total is positive (in particular the population is
non-empty), the share is a finite number between 0 and 100. -/
theorem topStatesShare_bounds (groups : List AggGroup)
    (hpos : 0 < (groups.map AggGroup.total).sum)
    (hnn : ∀ g ∈ groups, 0 ≤ g.total) :
    ∃ s, topStatesShare groups = some s ∧ 0 ≤ s ∧ s ≤ 100 := by
  have hperm : List.Perm ((groups.mergeSort
        (fun a b => decide (AggGroup.total b ≤ AggGroup.total a))).map
        AggGroup.total) (groups.map AggGroup.total) :=
    (List.mergeSort_perm groups _).map _
  have hnn1 : ∀ x ∈ groups.map AggGroup.total, 0 ≤ x := by
    intro x hx
    obtain ⟨g, hg, rfl⟩ := List.mem_map.mp hx
    exact hnn g hg
  have hkey := sum_take_nonneg_le hperm hnn1 5
  have htops : ((rankerLargest AggGroup.total 5 groups).map
      AggGroup.total).sum =
      (((groups.mergeSort
        (fun a b => decide (AggGroup.total b ≤ AggGroup.total a))).map
        AggGroup.total).take 5).sum := by
    rw [rankerLargest, List.map_take]
  refine ⟨((rankerLargest AggGroup.total 5 groups).map AggGroup.total).sum /
      (groups.map AggGroup.total).sum * 100, ?_, ?_, ?_⟩
  · unfold topStatesShare fdiv
    rw [if_neg hpos.ne']
    rfl
  · rw [htops]
    exact mul_nonneg (div_nonneg hkey.1 hpos.le) (by norm_num)
  · rw [htops]
    have h1 : (((groups.mergeSort
        (fun a b => decide (AggGroup.total b ≤ AggGroup.total a))).map
        AggGroup.total).take 5).sum /
        (groups.map AggGroup.total).sum ≤ 1 := (div_le_one hpos).mpr hkey.2
    calc (((groups.mergeSort
          (fun a b => decide (AggGroup.total b ≤ AggGroup.total a))).map
          AggGroup.total).take 5).sum /
          (groups.map AggGroup.total).sum * 100 ≤ 1 * 100 :=
        mul_le_mul_of_nonneg_right h1 (by norm_num)
      _ = 100 := one_mul 100

/-- Witness for C9 at the population of the spec example. -/
theorem topStatesShare_bounds_witness :
    ∃ s, topStatesShare
      [⟨"CA", 1, 500⟩, ⟨"TX", 1, 300⟩, ⟨"NY", 1, 100⟩,
       ⟨"FL", 1, 50⟩, ⟨"WA", 1, 10⟩] = some s ∧ 0 ≤ s ∧ s ≤ 100 :=
  topStatesShare_bounds
    [⟨"CA", 1, 500⟩, ⟨"TX", 1, 300⟩, ⟨"NY", 1, 100⟩,
     ⟨"FL", 1, 50⟩, ⟨"WA", 1, 10⟩]
    (by norm_num [List.map_cons, List.map_nil, List.sum_cons, List.sum_nil])
    (by intro g hg; fin_cases hg <;> norm_num)

/-- C8: the largest-N Ranker is idempotent: ranking an already ranked
selection again with the same key and the same N returns the same
selection (the stable descending sort of a sorted prefix is itself). -/
theorem rankerLargest_idem {α : Type} (key : α → ℚ) (n : Nat)
    (xs : List α) (h : n ≤ xs.length) :
    rankerLargest key n (rankerLargest key n xs) =
      rankerLargest key n xs := by
  have htrans : ∀ a b c : α, (fun a b => decide (key b ≤ key a)) a b →
      (fun a b => decide (key b ≤ key a)) b c →
      (fun a b => decide (key b ≤ key a)) a c := by
    intro a b c hab hbc
    simp only [decide_eq_true_eq] at hab hbc ⊢
    exact le_trans hbc hab
  have htotal : ∀ a b : α, ((fun a b => decide (key b ≤ key a)) a b ||
      (fun a b => decide (key b ≤ key a)) b a) = true := by
    intro a b
    simp only [Bool.or_eq_true, decide_eq_true_eq]
    exact le_total (key b) (key a)
  have hsorted := List.sorted_mergeSort htrans htotal xs
  have htake := List.Pairwise.sublist
    (List.take_sublist n
      (xs.mergeSort (fun a b => decide (key b ≤ key a)))) hsorted
  unfold rankerLargest
  rw [List.mergeSort_of_sorted htake, List.take_take, Nat.min_self]

/-- Witness for C8 at a concrete three-group population with N equal
to 2. -/
theorem rankerLargest_idem_witness :
    rankerLargest AggGroup.total 2 (rankerLargest AggGroup.total 2
      [⟨"NY", 1, 100⟩, ⟨"CA", 1, 500⟩, ⟨"TX", 1, 300⟩]) =
    rankerLargest AggGroup.total 2
      [⟨"NY", 1, 100⟩, ⟨"CA", 1, 500⟩, ⟨"TX", 1, 300⟩] :=
  rankerLargest_idem AggGroup.total 2
    [⟨"NY", 1, 100⟩, ⟨"CA", 1, 500⟩, ⟨"TX", 1, 300⟩] (by norm_num)

/-- Splitting the length of a filter by a disjunction of two mutually
exclusive predicates. -/
theorem length_filter_or {α : Type} (p q : α → Bool) (l : List α)
    (hdisj : ∀ r, ¬(p r = true ∧ q r = true)) :
    (l.filter (fun r => p r || q r)).length =
      (l.filter p).length + (l.filter q).length := by
  induction l with
  | nil => rfl
  | cons a l ih =>
    by_cases hp : p a = true <;> by_cases hq : q a = true
    · exact absurd ⟨hp, hq⟩ (hdisj a)
    · simp [List.filter_cons, hp, hq, ih]
      omega
    · simp [List.filter_cons, hp, hq, ih]
      omega
    · simp [List.filter_cons, hp, hq, ih]

/-- Summing the partition sizes over a duplicate-free list of keys
counts exactly the rows whose dimension value is one of the keys. -/
theorem sum_partition_counts (dim : CorpRow → Option String)
    (rows : List CorpRow) (ks : List String) (hk : ks.Nodup) :
    (ks.map (fun k => (dimPartition dim rows k).length)).sum =
      (rows.filter (fun r => decide (dim r ∈ ks.map some))).length := by
  induction ks with
  | nil => simp
  | cons k ks ih =>
    have hk1 : k ∉ ks := (List.nodup_cons.mp hk).1
    have hk2 : ks.Nodup := (List.nodup_cons.mp hk).2
    rw [List.map_cons, List.sum_cons, ih hk2]
    simp only [dimPartition, List.map_cons]
    rw [← length_filter_or (fun r => decide (dim r = some k))
      (fun r => decide (dim r ∈ ks.map some)) rows ?_]
    · congr 1
      apply List.filter_congr
      intro r _
      simp [List.mem_cons, Bool.decide_or]
    · intro r ⟨h1, h2⟩
      rw [decide_eq_true_eq] at h1 h2
      rw [h1] at h2
      exact hk1 (by simpa using h2)

/-- C6: for every view and dimension column, the groupby partitions are
pairwise disjoint, every row with a non-null dimension value lies in the
partition of its key (whose key is listed), a row with a null dimension
value lies in no partition, and the partition sizes sum to the number of
rows with a non-null dimension value. -/
theorem groupby_partition (dim : CorpRow → Option String)
    (df : List CorpRow) :
    (∀ k k', k ≠ k' → ∀ r, r ∈ dimPartition dim df k →
      r ∉ dimPartition dim df k') ∧
    (∀ r ∈ df, ∀ k, dim r = some k →
      k ∈ dimKeys dim df ∧ r ∈ dimPartition dim df k) ∧
    (∀ r, dim r = none → ∀ k, r ∉ dimPartition dim df k) ∧
    ((dimKeys dim df).map (fun k => (dimPartition dim df k).length)).sum =
      (df.filter (fun r => (dim r).isSome)).length := by
  refine ⟨?_, ?_, ?_, ?_⟩
  · intro k k' hkk r hr hr'
    have h1 : dim r = some k :=
      by simpa using (List.mem_filter.mp hr).2
    have h2 : dim r = some k' :=
      by simpa using (List.mem_filter.mp hr').2
    rw [h1] at h2
    exact hkk (Option.some.inj h2)
  · intro r hr k hdim
    refine ⟨List.mem_dedup.mpr (List.mem_filterMap.mpr ⟨r, hr, hdim⟩), ?_⟩
    exact List.mem_filter.mpr ⟨hr, by simp [hdim]⟩
  · intro r hdim k hr
    have h1 : dim r = some k :=
      by simpa using (List.mem_filter.mp hr).2
    rw [hdim] at h1
    exact Option.noConfusion h1
  · rw [sum_partition_counts dim df (dimKeys dim df) (List.nodup_dedup _)]
    congr 1
    apply List.filter_congr
    intro r hr
    cases hdim : dim r with
    | some v =>
      have hv : v ∈ dimKeys dim df :=
        List.mem_dedup.mpr (List.mem_filterMap.mpr ⟨r, hr, hdim⟩)
      simp [hv]
    | none => simp

/-- Witness for C6 on a concrete four-row view grouped by State: the CA
partition holds a CA row and its key is listed, partitions with
different keys are disjoint, the row with a null State is in no
partition, and the partition counts add up to the non-null count. -/
theorem groupby_partition_witness :
    ("CA" ∈ dimKeys (fun r => r.state) sampleStateDf ∧
      rowCA_A ∈ dimPartition (fun r => r.state) sampleStateDf "CA") ∧
    rowCA_A ∉ dimPartition (fun r => r.state) sampleStateDf "TX" ∧
    rowNone_B ∉ dimPartition (fun r => r.state) sampleStateDf "CA" ∧
    ((dimKeys (fun r => r.state) sampleStateDf).map
      (fun k => (dimPartition (fun r => r.state) sampleStateDf k).length)).sum =
      (sampleStateDf.filter (fun r => r.state.isSome)).length :=
  ⟨(groupby_partition (fun r => r.state) sampleStateDf).2.1 rowCA_A
      (by simp [sampleStateDf]) "CA" rfl,
   (groupby_partition (fun r => r.state) sampleStateDf).1 "CA" "TX"
      (by decide) rowCA_A
      ((groupby_partition (fun r => r.state) sampleStateDf).2.1 rowCA_A
        (by simp [sampleStateDf]) "CA" rfl).2,
   (groupby_partition (fun r => r.state) sampleStateDf).2.2.1 rowNone_B
      rfl "CA",
   (groupby_partition (fun r => r.state) sampleStateDf).2.2.2⟩

/-- C10: the Financial Trends radar values and the Funding by State
totals of one page render are identical to those of the render with the
All size choice, for every size choice and state selection: both outputs
are computed from the unfiltered environmental views and never read the
size selector. -/
theorem render_size_noninterference (size : SizeChoice)
    (stateFilter : List String) (dfBmf : List BmfRow)
    (df990 : List Row990) :
    (renderNonprofitPage size stateFilter dfBmf df990).radar =
      (renderNonprofitPage SizeChoice.all stateFilter dfBmf df990).radar ∧
    (renderNonprofitPage size stateFilter dfBmf df990).funding =
      (renderNonprofitPage SizeChoice.all stateFilter dfBmf df990).funding :=
  ⟨rfl, rfl⟩
